import Mathlib

/-!
Verification of the MS5611 barometric sensor driver (Berkin99/MS5611,
`ms5611.c` / `ms5611.h`) against its natural-language specification.

The driver is embedded shallowly:

* C `float`/`double` arithmetic is idealised as exact rational arithmetic
  over `ℚ`; the numeric literals of the source are kept verbatim as exact
  rationals (e.g. `4.76837158205E-7` becomes `476837158205 / 10^18`).
* Casts from floating point to `int32_t` truncate toward zero; this is
  `ctrunc` below (`Int.tdiv` of numerator by denominator).
* The byte-level bus (the `read`/`write`/`delay` function pointers) is
  modelled by an oracle: the `i`-th read transaction issued by the driver,
  at register `reg`, returns the status byte and payload bytes
  `(o i reg).status` / `(o i reg).byte k`.  Writes and delays produce no
  data; every wire interaction is recorded in an event trace so that
  command bytes, ordering and delays can be reasoned about.
* Machine integers are `ℕ`/`ℤ` with explicit `% 2^w` where the source
  narrows a value (`uint8` buffers, the `uint8` command byte, the
  `uint16` PROM word).
-/

/-- Truncation of a rational toward zero, the semantics of a C cast from a
floating value to `int32_t` (idealised: no 32-bit range restriction). -/
def ctrunc (q : ℚ) : ℤ := Int.tdiv q.num q.den

/-- Result of one bus read transaction: the transport status and the
payload bytes (`byte i` is the `i`-th byte placed into the buffer). -/
structure ReadRet where
  status : ℕ
  byte : ℕ → ℕ

/-- Bus oracle: `o i reg` describes the result of the `i`-th read
transaction issued by the driver when addressed to register `reg`. -/
def Oracle : Type := ℕ → ℕ → ReadRet

/-- Observable wire events of the driver: a command/register write with a
payload length, a read of `len` bytes from a register, and a blocking
delay in milliseconds. -/
inductive Event where
  | writeE : ℕ → ℕ → Event
  | readE : ℕ → ℕ → Event
  | delayE : ℕ → Event
deriving DecidableEq, Repr

/-- `MS5611_Config_t`: output sampling rate (the 5-valued enum, as its
ordinal), conversion time in ms (`uint8`), and the 7 coefficients
(`float C[7]`). -/
structure MS5611_Config where
  osRate : Fin 5
  ct : ℕ
  C : ℕ → ℚ

/-- `MS5611_Data_t`: temperature in 0.01 °C and pressure in 0.01 mbar,
both `int32_t`. -/
structure MS5611_Data where
  temperature : ℤ
  pressure : ℤ
deriving DecidableEq, Repr

/-- Source literal `4.6566128731E-10` (the second-order `T2` scale). -/
def MS5611_T2_SCALE : ℚ := 46566128731 / 10 ^ 20

/-- Source literal `4.76837158205E-7` (first pressure scale). -/
def MS5611_P_SCALE1 : ℚ := 476837158205 / 10 ^ 18

/-- Source literal `3.051757813E-5` (second pressure scale). -/
def MS5611_P_SCALE2 : ℚ := 3051757813 / 10 ^ 14

/-- `MS5611_NewDevice`: builds a device whose `config` member is not
mentioned in the initializer list and is therefore zero-initialized.
Only the configuration is modelled; the transport arguments do not
influence it. -/
def MS5611_NewDevice (intf : ℕ) (intf_type : Fin 2) (readf writef delayf : ℕ) :
    MS5611_Config :=
  { osRate := 0, ct := 0, C := fun _ => 0 }

/-- `MS5611_InitConstants`: presets `C[0..6]` with the base constants and,
when `mathMode` is nonzero, overwrites `C[1..4]` with the alternative
set.  Decimal literals of the source kept as exact rationals. -/
def MS5611_InitConstants (cfg : MS5611_Config) (mathMode : ℤ) : MS5611_Config :=
  let c0 := Function.update cfg.C 0 1
  let c1 := Function.update c0 1 32768
  let c2 := Function.update c1 2 65536
  let c3 := Function.update c2 3 (390625 / 10 ^ 8)
  let c4 := Function.update c3 4 (78125 / 10 ^ 7)
  let c5 := Function.update c4 5 256
  let c6 := Function.update c5 6 (11920928955 / 10 ^ 17)
  let cm :=
    if mathMode ≠ 0 then
      Function.update (Function.update (Function.update (Function.update c6
        1 65536) 2 131072) 3 (78125 / 10 ^ 7)) 4 (15625 / 10 ^ 6)
    else c6
  { cfg with C := cm }

/-- `MS5611_ReadPROM`: one 2-byte read at `0xA0 + reg*2` (the address is a
`uint8`), assembled big-endian as `(temp[0] << 8) | temp[1]` into a
`uint16`.  Returns the word, the next read-transaction index, and the
wire trace.  The transport status is ignored, as in the source. -/
def MS5611_ReadPROM (o : Oracle) (n : ℕ) (reg : ℕ) : ℕ × ℕ × List Event :=
  let mem := (0xA0 + reg * 2) % 256
  let r := o n mem
  ((((r.byte 0 % 256) <<< 8) ||| (r.byte 1 % 256)) % 65536,
    n + 1, [Event.readE mem 2])

/-- One iteration of the `MS5611_PROM` loop body for register `reg`:
`C[reg] *= tmp` and `if ((reg > 0) && (tmp == 0)) rslt = MS5611_ERROR`. -/
def MS5611_PROM_step (o : Oracle) (st : ℕ × MS5611_Config × ℕ × List Event)
    (reg : ℕ) : ℕ × MS5611_Config × ℕ × List Event :=
  let rslt := st.1
  let cfg := st.2.1
  let n := st.2.2.1
  let tr := st.2.2.2
  let rd := MS5611_ReadPROM o n reg
  let tmp := rd.1
  let cfg2 := { cfg with C := Function.update cfg.C reg (cfg.C reg * (tmp : ℚ)) }
  let rslt2 := if 0 < reg ∧ tmp = 0 then 1 else rslt
  (rslt2, cfg2, rd.2.1, tr ++ rd.2.2)

/-- `MS5611_PROM`: loops `reg = 0, …, 6`, multiplying each coefficient in
place by the word read for it; result status starts at `MS5611_OK = 0`
and becomes `MS5611_ERROR = 1` when a word for `reg > 0` is zero. -/
def MS5611_PROM (o : Oracle) (n : ℕ) (cfg : MS5611_Config) :
    ℕ × MS5611_Config × ℕ × List Event :=
  List.foldl (MS5611_PROM_step o) (0, cfg, n, []) [0, 1, 2, 3, 4, 5, 6]

/-- The conversion-time table of `MS5611_SetOSRate`
(`osrToConversitonTime`, name kept from the source). -/
def osrToConversitonTime : Fin 5 → ℕ := fun r =>
  if r = 0 then 1 else if r = 1 then 2 else if r = 2 then 3
  else if r = 3 then 5 else 10

/-- `MS5611_SetOSRate`: stores the table value into `config.ct` and the
rate into `config.osRate`. -/
def MS5611_SetOSRate (cfg : MS5611_Config) (osr : Fin 5) : MS5611_Config :=
  { cfg with ct := osrToConversitonTime osr, osRate := osr }

/-- `MS5611_GetOSRate`. -/
def MS5611_GetOSRate (cfg : MS5611_Config) : Fin 5 := cfg.osRate

/-- `MS5611_Reset`: a zero-payload write of command `0x1E`; no state
change, no status. -/
def MS5611_Reset : List Event := [Event.writeE 0x1E 0]

/-- `MS5611_Init`: reset, default rate (`MS5611_ULTRA_HIGH_RES`, ordinal
4), standard math-mode constants (`mathMode = 0`), `delay(20)`, then the
PROM load, whose status is the returned status. -/
def MS5611_Init (o : Oracle) (n : ℕ) (cfg : MS5611_Config) :
    ℕ × MS5611_Config × ℕ × List Event :=
  let cfg1 := MS5611_SetOSRate cfg 4
  let cfg2 := MS5611_InitConstants cfg1 0
  let pr := MS5611_PROM o n cfg2
  (pr.1, pr.2.1, pr.2.2.1, MS5611_Reset ++ [Event.delayE 20] ++ pr.2.2.2)

/-- `MS5611_Convert`: zero-payload write of
`addr + 2 * osRate` (a `uint8` command byte). -/
def MS5611_Convert (cfg : MS5611_Config) (addr : ℕ) : List Event :=
  [Event.writeE ((addr + (cfg.osRate : ℕ) * 2) % 256) 0]

/-- `MS5611_AdcRead`: a 3-byte read at `0x00`, assembled big-endian into a
24-bit value; returns (status, value, next read index, trace).  The
status byte is narrowed to `int8` width. -/
def MS5611_AdcRead (o : Oracle) (n : ℕ) : ℕ × ℕ × ℕ × List Event :=
  let r := o n 0x00
  (r.status % 256,
    ((r.byte 0 % 256) <<< 16) ||| ((r.byte 1 % 256) <<< 8) ||| (r.byte 2 % 256),
    n + 1, [Event.readE 0x00 3])

/-- `MS5611_RawDataProcess`: the compensation engine.  The imperative
mutation of `temperature` / `offset` / `sens` inside
`if (compensation) { if (temperature < 2000) { … } }` is rendered by
selecting between the uncorrected and corrected values; `t` and the
deep-cold square are `int32_t` products, `T2`, `offset2`, `sens2` are
float expressions (`2.5`, `1.25`, `7`, `5.5` kept exactly). -/
def MS5611_RawDataProcess (C : ℕ → ℚ) (D1 D2 : ℕ) (compensation : Bool) :
    MS5611_Data :=
  let dT : ℚ := (D2 : ℚ) - C 5
  let temperature0 : ℤ := ctrunc (2000 + dT * C 6)
  let offset0 : ℚ := C 2 + dT * C 4
  let sens0 : ℚ := C 1 + dT * C 3
  let T2 : ℚ := dT * dT * MS5611_T2_SCALE
  let t : ℤ := (temperature0 - 2000) * (temperature0 - 2000)
  let u : ℤ := (temperature0 + 1500) * (temperature0 + 1500)
  let offset2 : ℚ :=
    if temperature0 < -1500 then 5 / 2 * (t : ℚ) + 7 * (u : ℚ) else 5 / 2 * (t : ℚ)
  let sens2 : ℚ :=
    if temperature0 < -1500 then 5 / 4 * (t : ℚ) + 11 / 2 * (u : ℚ) else 5 / 4 * (t : ℚ)
  let temperature : ℤ :=
    if compensation = true ∧ temperature0 < 2000 then
      ctrunc ((temperature0 : ℚ) - T2) else temperature0
  let offset : ℚ :=
    if compensation = true ∧ temperature0 < 2000 then offset0 - offset2 else offset0
  let sens : ℚ :=
    if compensation = true ∧ temperature0 < 2000 then sens0 - sens2 else sens0
  { temperature := temperature,
    pressure := ctrunc (((D1 : ℚ) * sens * MS5611_P_SCALE1 - offset) * MS5611_P_SCALE2) }

/-- `MS5611_GetData`: convert `D1` (base `0x40`), delay `ct`, ADC read;
convert `D2` (base `0x50`), delay `ct`, ADC read; status is the bitwise
OR of the two read statuses; outputs are the processed values divided by
100 (with compensation on), produced regardless of status. -/
def MS5611_GetData (o : Oracle) (n : ℕ) (cfg : MS5611_Config) :
    ℕ × ℚ × ℚ × ℕ × List Event :=
  let a1 := MS5611_AdcRead o n
  let a2 := MS5611_AdcRead o a1.2.2.1
  let rslt := (0 ||| a1.1) ||| a2.1
  let data := MS5611_RawDataProcess cfg.C a1.2.1 a2.2.1 true
  (rslt, (data.temperature : ℚ) / 100, (data.pressure : ℚ) / 100, a2.2.2.1,
    MS5611_Convert cfg 0x40 ++ [Event.delayE cfg.ct] ++ a1.2.2.2 ++
    MS5611_Convert cfg 0x50 ++ [Event.delayE cfg.ct] ++ a2.2.2.2)

/-! ### Specification-side definitions

These follow the wording of the specification (§4.4 and the claims), to
be compared with the source-derived `MS5611_RawDataProcess`. -/

/-- Spec step 1: `dT = D2 − coefficient[5]`. -/
def specDT (C : ℕ → ℚ) (D2 : ℕ) : ℚ := (D2 : ℚ) - C 5

/-- Spec step 2: `TEMP = 2000 + dT × coefficient[6]`, truncated toward
zero; this is the pre-correction temperature. -/
def specTEMP (C : ℕ → ℚ) (D2 : ℕ) : ℤ := ctrunc (2000 + specDT C D2 * C 6)

/-- Spec step 3: `OFFSET = coefficient[2] + dT × coefficient[4]`. -/
def specOFFSET (C : ℕ → ℚ) (D2 : ℕ) : ℚ := C 2 + specDT C D2 * C 4

/-- Spec step 4: `SENS = coefficient[1] + dT × coefficient[3]`. -/
def specSENS (C : ℕ → ℚ) (D2 : ℕ) : ℚ := C 1 + specDT C D2 * C 3

/-- First-order (uncorrected) result, following the formulas of the spec with
the pressure scale constants of the source (which approximate `2^-21` and
`2^-15`). -/
def specFirstOrder (C : ℕ → ℚ) (D1 D2 : ℕ) : MS5611_Data :=
  { temperature := specTEMP C D2,
    pressure := ctrunc (((D1 : ℚ) * specSENS C D2 * MS5611_P_SCALE1 -
      specOFFSET C D2) * MS5611_P_SCALE2) }

/-- First-order result exactly as claim C1 words it, with the exact
powers of two `2^-21` and `2^-15` as the pressure scales. -/
def specFirstOrderPow2 (C : ℕ → ℚ) (D1 D2 : ℕ) : MS5611_Data :=
  { temperature := specTEMP C D2,
    pressure := ctrunc (((D1 : ℚ) * specSENS C D2 * (1 / 2 ^ 21) -
      specOFFSET C D2) * (1 / 2 ^ 15)) }

/-- Second-order corrected result, following the wording of the spec: the
correction fires exactly when the pre-correction `TEMP` is below 2000;
the deep-cold branch below −1500 adds `7·(TEMP+1500)²` and
`5.5·(TEMP+1500)²` on top of the moderate-cold terms
`2.5·(TEMP−2000)²` / `1.25·(TEMP−2000)²`; both breakpoints are tested on
the uncorrected `TEMP`; finally `TEMP −= dT²·scale`,
`OFFSET −= OFFSET2`, `SENS −= SENS2` (scale = the source literal
`4.6566128731E-10`, which the spec glosses as `2^-31`). -/
def specSecondOrder (C : ℕ → ℚ) (D1 D2 : ℕ) : MS5611_Data :=
  let T := specTEMP C D2
  if T < 2000 then
    let base : ℤ := (T - 2000) ^ 2
    let extra : ℤ := (T + 1500) ^ 2
    let offset2 : ℚ := 5 / 2 * (base : ℚ) + (if T < -1500 then 7 * (extra : ℚ) else 0)
    let sens2 : ℚ := 5 / 4 * (base : ℚ) + (if T < -1500 then 11 / 2 * (extra : ℚ) else 0)
    { temperature := ctrunc ((T : ℚ) - specDT C D2 * specDT C D2 * MS5611_T2_SCALE),
      pressure := ctrunc (((D1 : ℚ) * (specSENS C D2 - sens2) * MS5611_P_SCALE1 -
        (specOFFSET C D2 - offset2)) * MS5611_P_SCALE2) }
  else specFirstOrder C D1 D2

/-! ### Concrete instances used by witnesses and counterexamples -/

/-- A coefficient set with a huge pressure sensitivity (`C[1] = 2^15·10^10`),
exposing the gap between the pressure scales of the source and the exact
powers of two. -/
def cexC1 : ℕ → ℚ := fun k => if k = 1 then 327680000000000 else 0

/-- A coefficient set driving `dT = 2^35` with pre-correction temperature
1999, exposing the gap between `4.6566128731E-10` and `2^-31`. -/
def cexC2 : ℕ → ℚ := fun k =>
  if k = 5 then -(2 ^ 35) else if k = 6 then -(1 / 2 ^ 35) else 0

/-- An oracle whose every read returns status 0 and payload bytes 2, so
every PROM word is `0x202 = 514`. -/
def oracle514 : Oracle := fun _ _ => { status := 0, byte := fun _ => 2 }

/-- An oracle whose every read returns the byte pair (0, 5): every PROM
word is 5. -/
def oracle5 : Oracle := fun _ _ => { status := 0, byte := fun i => if i = 1 then 5 else 0 }

/-- An all-zero starting configuration. -/
def cfgZero : MS5611_Config := { osRate := 0, ct := 0, C := fun _ => 0 }

/-- A starting configuration whose coefficients are all 1. -/
def cfgOne : MS5611_Config := { osRate := 0, ct := 0, C := fun _ => 1 }

/-! ### Helper lemmas -/

lemma lor_eq_zero_iff (x y : ℕ) : x ||| y = 0 ↔ x = 0 ∧ y = 0 := by
  constructor
  · intro h
    refine ⟨Nat.zero_of_testBit_eq_false fun i => ?_, Nat.zero_of_testBit_eq_false fun i => ?_⟩
    all_goals
      have hb := congrArg (fun m => Nat.testBit m i) h
      simp [Nat.testBit_lor] at hb
      tauto
  · rintro ⟨rfl, rfl⟩
    rfl

lemma prom_counter (o : Oracle) (n : ℕ) (cfg : MS5611_Config) :
    (MS5611_PROM o n cfg).2.2.1 = n + 7 := by
  simp [MS5611_PROM, MS5611_PROM_step, MS5611_ReadPROM]

lemma prom_rates (o : Oracle) (n : ℕ) (cfg : MS5611_Config) :
    (MS5611_PROM o n cfg).2.1.osRate = cfg.osRate ∧ (MS5611_PROM o n cfg).2.1.ct = cfg.ct := by
  simp [MS5611_PROM, MS5611_PROM_step, MS5611_ReadPROM]

lemma prom_trace (o : Oracle) (n : ℕ) (cfg : MS5611_Config) :
    (MS5611_PROM o n cfg).2.2.2 =
      [Event.readE 0xA0 2, Event.readE 0xA2 2, Event.readE 0xA4 2, Event.readE 0xA6 2,
       Event.readE 0xA8 2, Event.readE 0xAA 2, Event.readE 0xAC 2] := by
  simp [MS5611_PROM, MS5611_PROM_step, MS5611_ReadPROM]

lemma prom_coeff (o : Oracle) (n : ℕ) (cfg : MS5611_Config) (k : Fin 7) :
    (MS5611_PROM o n cfg).2.1.C (k : ℕ) =
      cfg.C (k : ℕ) * ((MS5611_ReadPROM o (n + (k : ℕ)) (k : ℕ)).1 : ℚ) := by
  fin_cases k <;>
    simp [MS5611_PROM, MS5611_PROM_step, MS5611_ReadPROM, Function.update]

set_option maxHeartbeats 1000000 in
lemma prom_status (o : Oracle) (n : ℕ) (cfg : MS5611_Config) :
    (MS5611_PROM o n cfg).1 =
      if (MS5611_ReadPROM o (n + 1) 1).1 = 0 ∨ (MS5611_ReadPROM o (n + 2) 2).1 = 0 ∨
         (MS5611_ReadPROM o (n + 3) 3).1 = 0 ∨ (MS5611_ReadPROM o (n + 4) 4).1 = 0 ∨
         (MS5611_ReadPROM o (n + 5) 5).1 = 0 ∨ (MS5611_ReadPROM o (n + 6) 6).1 = 0
      then 1 else 0 := by
  simp only [MS5611_PROM, MS5611_PROM_step, MS5611_ReadPROM, List.foldl]
  norm_num
  split_ifs <;> tauto

lemma fin7_exists_pos_iff (w : ℕ → ℕ) :
    (∃ k : Fin 7, 0 < (k : ℕ) ∧ w (k : ℕ) = 0) ↔
      (w 1 = 0 ∨ w 2 = 0 ∨ w 3 = 0 ∨ w 4 = 0 ∨ w 5 = 0 ∨ w 6 = 0) := by
  constructor
  · rintro ⟨k, hk, hw⟩
    fin_cases k <;> simp_all
  · rintro (h | h | h | h | h | h)
    · exact ⟨1, by decide, h⟩
    · exact ⟨2, by decide, h⟩
    · exact ⟨3, by decide, h⟩
    · exact ⟨4, by decide, h⟩
    · exact ⟨5, by decide, h⟩
    · exact ⟨6, by decide, h⟩

lemma ctrunc_eq_floors (q : ℚ) : ctrunc q = if 0 ≤ q then ⌊q⌋ else -⌊-q⌋ := by
  unfold ctrunc
  split_ifs with h
  · rw [Rat.floor_def]
    exact Int.tdiv_eq_ediv (Rat.num_nonneg.mpr h) (Int.ofNat_nonneg _)
  · have hq : q < 0 := lt_of_not_le h
    have hnum : 0 ≤ -q.num := by
      rw [neg_nonneg]
      exact le_of_lt (Rat.num_neg.mpr hq)
    rw [Rat.floor_def, Rat.num_neg_eq_neg_num, Rat.neg_den]
    have hstep : q.num.tdiv (q.den : ℤ) = -((-q.num).tdiv (q.den : ℤ)) := by
      rw [Int.neg_tdiv, neg_neg]
    rw [hstep, Int.tdiv_eq_ediv hnum (Int.ofNat_nonneg _)]

lemma ctrunc_eq_of_nonneg (z : ℤ) (q : ℚ) (h1 : (z : ℚ) ≤ q) (h2 : q < z + 1)
    (h0 : 0 ≤ q) : ctrunc q = z := by
  rw [ctrunc_eq_floors, if_pos h0]
  exact Int.floor_eq_iff.mpr ⟨h1, h2⟩

lemma ctrunc_eq_of_neg (z : ℤ) (q : ℚ) (h1 : (z : ℚ) - 1 < q) (h2 : q ≤ z)
    (h0 : q < 0) : ctrunc q = z := by
  rw [ctrunc_eq_floors, if_neg (not_le.mpr h0)]
  have hf : ⌊-q⌋ = -z := by
    rw [Int.floor_eq_iff]
    constructor
    · push_cast
      linarith
    · push_cast
      linarith
  rw [hf, neg_neg]

lemma raw_off_eq_firstOrder (C : ℕ → ℚ) (D1 D2 : ℕ) :
    MS5611_RawDataProcess C D1 D2 false = specFirstOrder C D1 D2 := by
  rfl

lemma raw_on_eq_secondOrder (C : ℕ → ℚ) (D1 D2 : ℕ) :
    MS5611_RawDataProcess C D1 D2 true = specSecondOrder C D1 D2 := by
  unfold MS5611_RawDataProcess specSecondOrder specFirstOrder specTEMP specOFFSET specSENS specDT
  simp only [true_and]
  split_ifs with h1 h2
  · simp only [MS5611_Data.mk.injEq]
    refine ⟨trivial, ?_⟩
    congr 1
    push_cast
    ring
  · simp only [MS5611_Data.mk.injEq]
    refine ⟨trivial, ?_⟩
    congr 1
    push_cast
    ring
  · rfl

/-! ### Claims -/

/-- Claim C1 (amended): with compensation disabled or pre-correction
`TEMP ≥ 2000`, `MS5611_RawDataProcess` computes `dT = D2 − C[5]`,
`temperature = trunc(2000 + dT·C[6])`, `OFFSET = C[2] + dT·C[4]`,
`SENS = C[1] + dT·C[3]` and
`pressure = trunc((D1·SENS·s1 − OFFSET)·s2)` — with the source scale
constants `s1 = 4.76837158205E-7 ≈ 2^-21` and
`s2 = 3.051757813E-5 ≈ 2^-15`; the claim as stated, with the exact powers
of two, is refuted by `claim_C1_counterexample`. -/
theorem claim_C1_theorem (C : ℕ → ℚ) (D1 D2 : ℕ) (comp : Bool)
    (h : comp = false ∨ 2000 ≤ specTEMP C D2) :
    MS5611_RawDataProcess C D1 D2 comp = specFirstOrder C D1 D2 := by
  cases comp
  · exact raw_off_eq_firstOrder C D1 D2
  · rcases h with h | h
    · simp at h
    · rw [raw_on_eq_secondOrder]
      simp only [specSecondOrder]
      rw [if_neg (not_lt.mpr h)]

/-- Claim C1 witness: at the coefficient set `cexC1`, `D1 = 5`, `D2 = 7`,
compensation on, the pre-correction temperature is exactly 2000, and the
first-order formulas hold. -/
theorem claim_C1_witness :
    (2000 ≤ specTEMP cexC1 7) ∧
      MS5611_RawDataProcess cexC1 5 7 true = specFirstOrder cexC1 5 7 := by
  have ht : specTEMP cexC1 7 = 2000 := by
    unfold specTEMP specDT
    have harg : (2000 + (((7 : ℕ) : ℚ) - cexC1 5) * cexC1 6) = 2000 := by
      norm_num [cexC1]
    rw [harg]
    exact ctrunc_eq_of_nonneg 2000 _ (by norm_num) (by norm_num) (by norm_num)
  constructor
  · rw [ht]
  · exact claim_C1_theorem cexC1 5 7 true (Or.inr (le_of_eq ht.symm))

/-- Claim C1 counterexample: with coefficients `cexC1`
(`C[1] = 2^15·10^10`, others 0), `D1 = 2^21`, `D2 = 0` and compensation
off, the code computes pressure `10^10 + 1` while the formula of the
claim with the exact scales `2^-21` and `2^-15` gives `10^10`: the source
multiplies by `4.76837158205E-7` and `3.051757813E-5`, which are not
exactly those powers of two. -/
theorem claim_C1_counterexample :
    MS5611_RawDataProcess cexC1 2097152 0 false ≠ specFirstOrderPow2 cexC1 2097152 0 := by
  have e1 : (MS5611_RawDataProcess cexC1 2097152 0 false).pressure = 10000000001 := by
    show ctrunc _ = 10000000001
    refine ctrunc_eq_of_nonneg 10000000001 _ ?_ ?_ ?_ <;>
      norm_num [cexC1, MS5611_P_SCALE1, MS5611_P_SCALE2]
  have e2 : (specFirstOrderPow2 cexC1 2097152 0).pressure = 10000000000 := by
    show ctrunc _ = 10000000000
    refine ctrunc_eq_of_nonneg 10000000000 _ ?_ ?_ ?_ <;>
      norm_num [cexC1, specSENS, specOFFSET, specDT]
  intro hcontra
  rw [hcontra] at e1
  rw [e1] at e2
  exact absurd e2 (by norm_num)

/-- Claim C2 (amended): with compensation enabled, the engine equals the
spec-shaped `specSecondOrder`: the correction fires exactly when the
pre-correction `TEMP` is strictly below 2000 (at 2000 it does not fire,
and the result is the first-order one); the deep-cold branch fires
exactly when the pre-correction `TEMP` is strictly below −1500 and adds
`7·(TEMP+1500)²` to `OFFSET2` and `5.5·(TEMP+1500)²` to `SENS2` on top of
the moderate-cold terms `2.5·(TEMP−2000)²` / `1.25·(TEMP−2000)²`; both
breakpoints are tested on the uncorrected `TEMP`; then
`TEMP −= dT²·4.6566128731E-10` (the source scale for `2^-31`; the claim
as stated, with the exact `2^-31`, is refuted by
`claim_C2_counterexample`), `OFFSET −= OFFSET2`, `SENS −= SENS2`. -/
theorem claim_C2_theorem (C : ℕ → ℚ) (D1 D2 : ℕ) :
    MS5611_RawDataProcess C D1 D2 true = specSecondOrder C D1 D2 :=
  raw_on_eq_secondOrder C D1 D2

/-- Claim C2 counterexample: with coefficients `cexC2` (`C[5] = −2^35`,
`C[6] = −2^-35`), `D1 = D2 = 0`, the pre-correction temperature is 1999,
the correction fires, and the computed temperature differs from
`trunc(TEMP − dT²·2^-31)` as the claim words it: the source multiplies
by `4.6566128731E-10`, which is not exactly `2^-31`. -/
theorem claim_C2_counterexample :
    specTEMP cexC2 0 < 2000 ∧
    (MS5611_RawDataProcess cexC2 0 0 true).temperature ≠
      ctrunc ((specTEMP cexC2 0 : ℚ) - specDT cexC2 0 * specDT cexC2 0 * (1 / 2 ^ 31)) := by
  have harg : (2000 + (((0 : ℕ) : ℚ) - cexC2 5) * cexC2 6) = 1999 := by
    norm_num [cexC2]
  have hq : ctrunc ((1999 : ℚ)) = 1999 :=
    ctrunc_eq_of_nonneg 1999 _ (by norm_num) (by norm_num) (by norm_num)
  have ht : specTEMP cexC2 0 = 1999 := by
    unfold specTEMP specDT
    rw [harg]
    exact hq
  have e1 : (MS5611_RawDataProcess cexC2 0 0 true).temperature = -549755811891 := by
    simp only [MS5611_RawDataProcess, harg, hq]
    rw [if_pos (by norm_num)]
    refine ctrunc_eq_of_neg _ _ ?_ ?_ ?_ <;>
      norm_num [cexC2, MS5611_T2_SCALE]
  have e2 : ctrunc ((specTEMP cexC2 0 : ℚ) - specDT cexC2 0 * specDT cexC2 0 * (1 / 2 ^ 31)) =
      -549755811889 := by
    rw [ht]
    unfold specDT
    refine ctrunc_eq_of_neg _ _ ?_ ?_ ?_ <;>
      norm_num [cexC2]
  refine ⟨by rw [ht]; norm_num, ?_⟩
  rw [e1, e2]
  norm_num

/-- Claim C3: for every oracle, starting from the preset base constants,
the calibration loader stores at every slot `k ∈ 0..6` the product of the
base constant and the big-endian 16-bit word read for that slot; it
returns a nonzero status iff some word for a slot index ≥ 1 is exactly
zero; and it performs all seven 2-byte reads at `0xA0 + 2k` with no early
exit, so every slot is populated regardless of failures. -/
theorem claim_C3_theorem (o : Oracle) (n : ℕ) (cfg : MS5611_Config) (m : ℤ) :
    (∀ k : Fin 7, (MS5611_PROM o n (MS5611_InitConstants cfg m)).2.1.C (k : ℕ) =
        (MS5611_InitConstants cfg m).C (k : ℕ) *
          ((MS5611_ReadPROM o (n + (k : ℕ)) (k : ℕ)).1 : ℚ)) ∧
    ((MS5611_PROM o n (MS5611_InitConstants cfg m)).1 ≠ 0 ↔
      ∃ k : Fin 7, 0 < (k : ℕ) ∧ (MS5611_ReadPROM o (n + (k : ℕ)) (k : ℕ)).1 = 0) ∧
    (MS5611_PROM o n (MS5611_InitConstants cfg m)).2.2.2 =
      [Event.readE 0xA0 2, Event.readE 0xA2 2, Event.readE 0xA4 2, Event.readE 0xA6 2,
       Event.readE 0xA8 2, Event.readE 0xAA 2, Event.readE 0xAC 2] := by
  refine ⟨prom_coeff o n _, ?_, prom_trace o n _⟩
  rw [prom_status, fin7_exists_pos_iff (fun k => (MS5611_ReadPROM o (n + k) k).1)]
  split_ifs with h <;> simp [h]

/-- Claim C4 counterexample: after `MS5611_InitConstants` followed by one
run of the calibration loader against an oracle whose every PROM word is
5, the stored `C[0]` is 5, not 1: the loader also reads slot 0 and
multiplies `C[0]` by that word. -/
theorem claim_C4_counterexample :
    (MS5611_PROM oracle5 0 (MS5611_InitConstants cfgZero 0)).2.1.C 0 ≠ 1 := by
  norm_num [MS5611_PROM, MS5611_PROM_step, MS5611_ReadPROM, MS5611_InitConstants,
    oracle5, cfgZero, Function.update]

/-- Claim C4 (amended): `MS5611_InitConstants` fixes `C[0] = 1`, but the
calibration loader does not leave slot 0 alone: it also reads the word at
address `0xA0` and multiplies `C[0]` by it, so after a loader run `C[0]`
equals the slot-0 word — it equals 1 only when that word is 1. -/
theorem claim_C4_theorem (cfg : MS5611_Config) (m : ℤ) (o : Oracle) (n : ℕ) :
    (MS5611_InitConstants cfg m).C 0 = 1 ∧
    (MS5611_PROM o n (MS5611_InitConstants cfg m)).2.1.C 0 =
      ((MS5611_ReadPROM o n 0).1 : ℚ) := by
  have h0 : (MS5611_InitConstants cfg m).C 0 = 1 := by
    unfold MS5611_InitConstants
    split_ifs <;> simp [Function.update]
  refine ⟨h0, ?_⟩
  have h1 := prom_coeff o n (MS5611_InitConstants cfg m) 0
  simpa [h0] using h1

/-- Claim C5: `MS5611_Init` returns exactly the status of the PROM load
over the standard-mode constants with the default ultra-high-res rate
set; the status is nonzero iff some PROM word for a slot ≥ 1 is zero
(reset and rate setting contribute no status); and the wire trace is the
reset write `0x1E`, the 20 ms settle delay, then the calibration reads,
in that order; the final configuration has rate ordinal 4 and conversion
time 10 ms. -/
theorem claim_C5_theorem (o : Oracle) (n : ℕ) (cfg : MS5611_Config) :
    (MS5611_Init o n cfg).1 =
      (MS5611_PROM o n (MS5611_InitConstants (MS5611_SetOSRate cfg 4) 0)).1 ∧
    ((MS5611_Init o n cfg).1 ≠ 0 ↔
      ∃ k : Fin 7, 0 < (k : ℕ) ∧ (MS5611_ReadPROM o (n + (k : ℕ)) (k : ℕ)).1 = 0) ∧
    (MS5611_Init o n cfg).2.2.2 =
      [Event.writeE 0x1E 0, Event.delayE 20, Event.readE 0xA0 2, Event.readE 0xA2 2,
       Event.readE 0xA4 2, Event.readE 0xA6 2, Event.readE 0xA8 2, Event.readE 0xAA 2,
       Event.readE 0xAC 2] ∧
    (MS5611_Init o n cfg).2.1.osRate = 4 ∧ (MS5611_Init o n cfg).2.1.ct = 10 := by
  refine ⟨rfl, ?_, ?_, ?_, ?_⟩
  · show (MS5611_PROM o n _).1 ≠ 0 ↔ _
    rw [prom_status, fin7_exists_pos_iff (fun k => (MS5611_ReadPROM o (n + k) k).1)]
    split_ifs with h <;> simp [h]
  · show MS5611_Reset ++ [Event.delayE 20] ++ (MS5611_PROM o n _).2.2.2 = _
    rw [prom_trace]
    rfl
  · show (MS5611_PROM o n _).2.1.osRate = 4
    rw [(prom_rates o n _).1]
    rfl
  · show (MS5611_PROM o n _).2.1.ct = 10
    rw [(prom_rates o n _).2]
    rfl

/-- Claim C6: the status of a full `MS5611_GetData` cycle is exactly the
bitwise OR of the two ADC-read statuses (the convert writes contribute
nothing), so the cycle fails iff at least one read status is nonzero;
and the output temperature and pressure always equal the processed
values of whatever raw bytes were read, independently of the status; the
trace shows the two convert writes and the two conversion delays. -/
theorem claim_C6_theorem (o : Oracle) (n : ℕ) (cfg : MS5611_Config) :
    (MS5611_GetData o n cfg).1 = ((MS5611_AdcRead o n).1 ||| (MS5611_AdcRead o (n + 1)).1) ∧
    ((MS5611_GetData o n cfg).1 ≠ 0 ↔
      ((MS5611_AdcRead o n).1 ≠ 0 ∨ (MS5611_AdcRead o (n + 1)).1 ≠ 0)) ∧
    (MS5611_GetData o n cfg).2.1 =
      ((MS5611_RawDataProcess cfg.C (MS5611_AdcRead o n).2.1
        (MS5611_AdcRead o (n + 1)).2.1 true).temperature : ℚ) / 100 ∧
    (MS5611_GetData o n cfg).2.2.1 =
      ((MS5611_RawDataProcess cfg.C (MS5611_AdcRead o n).2.1
        (MS5611_AdcRead o (n + 1)).2.1 true).pressure : ℚ) / 100 ∧
    (MS5611_GetData o n cfg).2.2.2.2 =
      [Event.writeE ((0x40 + (cfg.osRate : ℕ) * 2) % 256) 0, Event.delayE cfg.ct,
       Event.readE 0x00 3,
       Event.writeE ((0x50 + (cfg.osRate : ℕ) * 2) % 256) 0, Event.delayE cfg.ct,
       Event.readE 0x00 3] := by
  refine ⟨?_, ?_, rfl, rfl, rfl⟩
  · show ((0 ||| (MS5611_AdcRead o n).1) ||| (MS5611_AdcRead o (n + 1)).1) = _
    rw [Nat.zero_or]
  · show ((0 ||| (MS5611_AdcRead o n).1) ||| (MS5611_AdcRead o (n + 1)).1) ≠ 0 ↔ _
    simp only [Nat.zero_or]
    rw [Ne, lor_eq_zero_iff]
    tauto

/-- Claim C7: for every sampling rate `r`, after `MS5611_SetOSRate`,
`MS5611_GetOSRate` returns `r` and the stored conversion time is the
table value `[1, 2, 3, 5, 10]` at ordinal `r`; both fields are written by
the same call. -/
theorem claim_C7_theorem (cfg : MS5611_Config) (r : Fin 5) :
    MS5611_GetOSRate (MS5611_SetOSRate cfg r) = r ∧
    (MS5611_SetOSRate cfg r).ct = ([1, 2, 3, 5, 10] : List ℕ).get r := by
  refine ⟨rfl, ?_⟩
  fin_cases r <;> rfl

/-- Claim C8: with the compensation flag off, `MS5611_RawDataProcess`
yields exactly the first-order results for all inputs — temperature
`trunc(2000 + dT·C[6])` and pressure computed from
`OFFSET = C[2] + dT·C[4]` and `SENS = C[1] + dT·C[3]` with no
second-order terms subtracted, including when `TEMP < 2000`. -/
theorem claim_C8_theorem (C : ℕ → ℚ) (D1 D2 : ℕ) :
    MS5611_RawDataProcess C D1 D2 false = specFirstOrder C D1 D2 :=
  raw_off_eq_firstOrder C D1 D2

/-- Claim C9: `MS5611_PROM` is not idempotent: it multiplies in place, so
two consecutive runs that read the same PROM words leave each `C[k]`
equal to the prior value times the square of the word. -/
theorem claim_C9_theorem (o : Oracle) (n : ℕ) (cfg : MS5611_Config)
    (h : ∀ k : Fin 7, (MS5611_ReadPROM o (n + 7 + (k : ℕ)) (k : ℕ)).1 =
      (MS5611_ReadPROM o (n + (k : ℕ)) (k : ℕ)).1) :
    ∀ k : Fin 7,
      (MS5611_PROM o (MS5611_PROM o n cfg).2.2.1 (MS5611_PROM o n cfg).2.1).2.1.C (k : ℕ) =
        cfg.C (k : ℕ) * ((MS5611_ReadPROM o (n + (k : ℕ)) (k : ℕ)).1 : ℚ) ^ 2 := by
  intro k
  have h1 := prom_coeff o n cfg k
  have h2 := prom_coeff o (n + 7) (MS5611_PROM o n cfg).2.1 k
  rw [prom_counter o n cfg, h2, h1, h k]
  ring

/-- Claim C9 witness: against an oracle whose every word is 514, starting
from all-1 coefficients, two consecutive PROM runs leave
`C[3] = 514² = 264196`. -/
theorem claim_C9_witness :
    (∀ k : Fin 7, (MS5611_ReadPROM oracle514 (0 + 7 + (k : ℕ)) (k : ℕ)).1 =
        (MS5611_ReadPROM oracle514 (0 + (k : ℕ)) (k : ℕ)).1) ∧
    (MS5611_PROM oracle514 (MS5611_PROM oracle514 0 cfgOne).2.2.1
        (MS5611_PROM oracle514 0 cfgOne).2.1).2.1.C 3 = 264196 := by
  refine ⟨by decide, ?_⟩
  have h := claim_C9_theorem oracle514 0 cfgOne (by decide) 3
  rw [show (((3 : Fin 7)) : ℕ) = 3 from rfl] at h
  rw [h]
  norm_num [cfgOne, MS5611_ReadPROM, oracle514,
    show ((2 <<< 8 ||| 2) % 65536 : ℕ) = 514 from by decide]

/-- Claim C10: a handle from `MS5611_NewDevice` has an entirely zero
configuration — rate ordinal 0, conversion time 0, all coefficients 0 —
for every argument tuple; a measurement cycle on the fresh handle waits
0 ms between convert and read; and the rate-to-conversion-time table
invariant does not hold (`ct = 0` while the table gives 1 at ordinal 0). -/
theorem claim_C10_theorem (intf : ℕ) (t : Fin 2) (rf wf df : ℕ) (o : Oracle) (n : ℕ) :
    (MS5611_NewDevice intf t rf wf df).osRate = 0 ∧
    (MS5611_NewDevice intf t rf wf df).ct = 0 ∧
    (∀ k : ℕ, (MS5611_NewDevice intf t rf wf df).C k = 0) ∧
    (MS5611_GetData o n (MS5611_NewDevice intf t rf wf df)).2.2.2.2 =
      [Event.writeE 0x40 0, Event.delayE 0, Event.readE 0x00 3,
       Event.writeE 0x50 0, Event.delayE 0, Event.readE 0x00 3] ∧
    (MS5611_NewDevice intf t rf wf df).ct ≠
      osrToConversitonTime (MS5611_NewDevice intf t rf wf df).osRate := by
  refine ⟨rfl, rfl, fun k => rfl, rfl, ?_⟩
  show (0 : ℕ) ≠ osrToConversitonTime 0
  decide
